import Mathlib

/-!
# Verification of the libgit2 core: ODB, repository cache, write-back

Shallow embedding of `src/odb.c` and `src/repository.c`.  Pointers are
modelled as offsets/indices, byte buffers as `List Nat` (byte values),
`NULL` pointers as `none`, and machine error codes as `Int`.  External
collaborators that are declared but not defined in the sources (error
code values, `git_rawobj_close`, the hashtable, the per-type
parsers/serializers, the SHA1 primitive) are modelled from the spec and
marked as such in their doc comments.
-/

/-! ## Error codes

Modelled from the spec: the numeric error constants live in a header that
is not part of the two translated source files; only their distinctness
and negativity are observable here (the C code tests `error < 0`). -/

def GIT_SUCCESS : Int := 0
def GIT_ERROR : Int := -1
def GIT_ENOTFOUND : Int := -3
def GIT_ENOMEM : Int := -4
def GIT_ENOTAREPO : Int := -8
def GIT_EINVALIDTYPE : Int := -9
def GIT_EBUSY : Int := -12

/-! ## Object types

The numbering is fixed by the index comments on `obj_type_table` in
`src/odb.c`; `GIT_OBJ_ANY` and `GIT_OBJ_BAD` are the conventional
sentinels from the declaring header. -/

def GIT_OBJ_ANY : Int := -2
def GIT_OBJ_BAD : Int := -1
def GIT_OBJ_COMMIT : Int := 1
def GIT_OBJ_TREE : Int := 2
def GIT_OBJ_BLOB : Int := 3
def GIT_OBJ_TAG : Int := 4
def GIT_OBJ_OFS_DELTA : Int := 6
def GIT_OBJ_REF_DELTA : Int := 7

/-- `obj_type_table` from `src/odb.c`: type name string and valid-loose flag,
indexed by the numeric object type. -/
def obj_type_table : List (String × Bool) :=
  [("", false), ("commit", true), ("tree", true), ("blob", true),
   ("tag", true), ("", false), ("OFS_DELTA", false), ("REF_DELTA", false)]

/-- `git_otype_tostring` from `src/odb.c`. -/
def git_otype_tostring (t : Int) : String :=
  if t < 0 ∨ (8 : Int) ≤ t then "" else (obj_type_table.getD t.toNat ("", false)).1

/-- `git_otype_is_loose` from `src/odb.c`. -/
def git_otype_is_loose (t : Int) : Bool :=
  if t < 0 ∨ (8 : Int) ≤ t then false else (obj_type_table.getD t.toNat ("", false)).2

/-! ## Digests and raw objects -/

/-- `git_oid`: a 20-byte content identifier, modelled as its byte list. -/
structure git_oid where
  id : List Nat
deriving DecidableEq, Repr

/-- `git_rawobj`: `{type, data, len}`.  `data = none` models a NULL
pointer; when `data = some bs`, the C pointer addresses the bytes `bs`. -/
structure git_rawobj where
  type : Int
  data : Option (List Nat)
  len : Nat
deriving DecidableEq, Repr

/-- Modelled from the spec: `git_rawobj_close` (declared in the ODB header,
not in the translated sources) releases the raw object's byte buffer;
"Closing a raw object releases its byte buffer" (§3). -/
def git_rawobj_close (o : git_rawobj) : git_rawobj :=
  { o with data := none }

/-! ## Decimal rendering (the `%zu` conversion of `snprintf`) -/

/-- Digit-extraction loop for the decimal rendering, structurally
recursive on a fuel bound (a number `n` has at most `n + 1` digits, so the
fuel in `decimal_bytes` never runs out). -/
def decimal_core : Nat → Nat → List Nat
  | 0, _ => []
  | fuel + 1, n =>
      if n < 10 then [48 + n] else decimal_core fuel (n / 10) ++ [48 + n % 10]

/-- Byte values of the decimal rendering of `n`, most significant digit
first: the `%zu` conversion used by `format_object_header`. -/
def decimal_bytes (n : Nat) : List Nat :=
  decimal_core (n + 1) n

/-- Byte values of a Lean string (the C `char` array contents). -/
def str_bytes (s : String) : List Nat :=
  s.toList.map Char.toNat

/-- `format_object_header` from `src/odb.c`: renders
`"<type_name> <decimal_length>"` into a buffer of size `n` via `snprintf`.
Returns the rendered length plus one (accounting for the NUL terminator)
together with the header bytes including the NUL, or `GIT_ERROR` when the
rendering would not fit (the C code asserts before returning the error). -/
def format_object_header (n : Nat) (obj : git_rawobj) : Int × List Nat :=
  let s := str_bytes (git_otype_tostring obj.type) ++ [32] ++ decimal_bytes obj.len
  if s.length < n then (((s.length + 1 : Nat) : Int), s ++ [0])
  else (GIT_ERROR, (s.take (n - 1)) ++ [0])

/-- `git_odb__hash_obj` from `src/odb.c`, abstracted over the digest
primitive `H` (`git_hash_vec` concatenates its input vectors): checks the
type is loose-representable and the data pointer is non-null for nonzero
length, formats the header into a caller buffer of size `n`, and hashes
header-then-payload.  Returns the error code, the header length written
back through `len`, and the computed oid. -/
def git_odb__hash_obj (H : List Nat → git_oid) (n : Nat) (obj : git_rawobj) :
    Int × Nat × Option git_oid :=
  if ¬ git_otype_is_loose obj.type then (GIT_ERROR, 0, none)
  else if obj.data = none ∧ obj.len ≠ 0 then (GIT_ERROR, 0, none)
  else
    let (hdrlen, hdr) := format_object_header n obj
    if hdrlen < 0 then (GIT_ERROR, 0, none)
    else
      let payload := (obj.data.getD []).take obj.len
      (GIT_SUCCESS, hdrlen.toNat, some (H (hdr ++ payload)))

/-- `git_rawobj_hash` from `src/odb.c`: hashes through a 64-byte stack
header buffer. -/
def git_rawobj_hash (H : List Nat → git_oid) (obj : git_rawobj) :
    Int × Nat × Option git_oid :=
  git_odb__hash_obj H 64 obj

/-! ### Facts about the decimal rendering -/

theorem decimal_core_length_le : ∀ fuel n k : Nat, n < 10 ^ k → 1 ≤ k →
    (decimal_core fuel n).length ≤ k := by
  intro fuel
  induction fuel with
  | zero => intro n k _ _; simp [decimal_core]
  | succ fuel ih =>
    intro n k hn hk
    rw [decimal_core]
    by_cases h : n < 10
    · simp [h]; omega
    · simp only [h, if_false, List.length_append, List.length_singleton]
      have hk2 : 2 ≤ k := by
        by_contra hk1
        have : k = 1 := by omega
        subst this
        simp at hn
        omega
      have hdiv : n / 10 < 10 ^ (k - 1) := by
        rw [Nat.div_lt_iff_lt_mul (by norm_num)]
        calc n < 10 ^ k := hn
          _ = 10 ^ (k - 1) * 10 := by
              rw [← pow_succ]
              congr 1
              omega
      have := ih (n / 10) (k - 1) hdiv (by omega)
      omega

theorem decimal_bytes_length_le (n k : Nat) (hn : n < 10 ^ k) (hk : 1 ≤ k) :
    (decimal_bytes n).length ≤ k :=
  decimal_core_length_le (n + 1) n k hn hk

theorem loose_type_cases (t : Int) (h : git_otype_is_loose t = true) :
    t = 1 ∨ t = 2 ∨ t = 3 ∨ t = 4 := by
  have h0 : ¬ (t < 0 ∨ (8 : Int) ≤ t) := by
    intro hb
    simp [git_otype_is_loose, hb] at h
  push_neg at h0
  obtain ⟨h1, h2⟩ := h0
  interval_cases t <;> revert h <;> decide

/-- C1: for every raw object whose type is loose-representable and whose
data pointer is non-null whenever its length is nonzero (here: the buffer
addressed by `data` holds exactly `len` bytes, covering the null/zero
case), `git_rawobj_hash` succeeds and computes the digest of exactly
`"<type_name> <decimal_length>\x00"` (NUL included) followed by the payload
bytes with no additional separator. -/
theorem C1_rawobj_hash_preimage (H : List Nat → git_oid) (obj : git_rawobj)
    (hty : git_otype_is_loose obj.type = true)
    (hbuf : (obj.data.getD []).length = obj.len)
    (hw : obj.len < 2 ^ 64) :
    git_rawobj_hash H obj =
      (GIT_SUCCESS,
       (str_bytes (git_otype_tostring obj.type) ++ [32] ++ decimal_bytes obj.len).length + 1,
       some (H (str_bytes (git_otype_tostring obj.type) ++ [32] ++
                decimal_bytes obj.len ++ [0] ++ obj.data.getD []))) := by
  have hdig : (decimal_bytes obj.len).length ≤ 20 :=
    decimal_bytes_length_le obj.len 20 (lt_of_lt_of_le hw (by norm_num)) (by norm_num)
  have hname : (str_bytes (git_otype_tostring obj.type)).length ≤ 6 := by
    rcases loose_type_cases obj.type hty with h | h | h | h <;> rw [h] <;> decide
  have hfits : (str_bytes (git_otype_tostring obj.type) ++ [32] ++
      decimal_bytes obj.len).length < 64 := by
    simp only [List.length_append, List.length_singleton]
    omega
  have hnotnull : ¬ (obj.data = none ∧ obj.len ≠ 0) := by
    rintro ⟨hd, hl⟩
    rw [hd] at hbuf
    simp at hbuf
    omega
  have htake : (obj.data.getD []).take obj.len = obj.data.getD [] := by
    rw [← hbuf]
    exact List.take_length _
  rw [git_rawobj_hash, git_odb__hash_obj, if_neg (by simp [hty]), if_neg hnotnull]
  simp only [format_object_header, if_pos hfits]
  rw [if_neg (by omega), htake]
  simp [List.append_assoc]
  omega

/-- Witness for C1 at the spec's S1 input: a blob with payload `"hello"`
is hashed over the pre-image `"blob 5\x00hello"`. -/
theorem C1_rawobj_hash_witness :
    git_otype_is_loose 3 = true ∧
    ((some [104, 101, 108, 108, 111] : Option (List Nat)).getD []).length = 5 ∧
    git_rawobj_hash (fun l => ⟨l⟩) ⟨3, some [104, 101, 108, 108, 111], 5⟩ =
      (GIT_SUCCESS, 7,
       some ⟨[98, 108, 111, 98, 32, 53, 0, 104, 101, 108, 108, 111]⟩) :=
  ⟨by decide, by decide,
   (C1_rawobj_hash_preimage (fun l => ⟨l⟩) ⟨3, some [104, 101, 108, 108, 111], 5⟩
      (by decide) (by decide) (by norm_num)).trans (by decide)⟩

/-! ## Object database: backends and dispatch (`src/odb.c`) -/

/-- `git_odb_backend`: a capability record.  `read` is mandatory (the C
code asserts `b->read != NULL`); `read_header`, `write` and `exists` are
optional hooks (`none` models a NULL function pointer).  Each hook returns
the C error code together with the value it stores through its out
parameter. -/
structure git_odb_backend where
  priority : Int
  read : git_oid → Int × git_rawobj
  read_header : Option (git_oid → Int × git_rawobj)
  write : Option (git_rawobj → Int × git_oid)
  exists_hook : Option (git_oid → Bool)

/-- `git_odb`: the backend collection, held in its stored (sorted) order. -/
structure git_odb where
  backends : List git_odb_backend

/-- The probe loop of `git_odb_read`: iterate while `error < 0`, each
probed backend overwriting the out parameter. -/
def odb_read_loop (id : git_oid) :
    List git_odb_backend → Int → Option git_rawobj → Int × Option git_rawobj
  | [], error, out => (error, out)
  | b :: rest, error, out =>
      if error < 0 then odb_read_loop id rest (b.read id).1 (some (b.read id).2)
      else (error, out)

/-- `git_odb_read` from `src/odb.c`: probes the backends in stored order
starting from `GIT_ENOTFOUND`; the out parameter starts uninitialized
(`none`). -/
def git_odb_read (db : git_odb) (id : git_oid) : Int × Option git_rawobj :=
  odb_read_loop id db.backends GIT_ENOTFOUND none

/-- The probe loop of `git_odb_read_header`: backends without the
`read_header` hook are skipped without touching the error. -/
def odb_read_header_loop (id : git_oid) :
    List git_odb_backend → Int → Option git_rawobj → Int × Option git_rawobj
  | [], error, out => (error, out)
  | b :: rest, error, out =>
      if error < 0 then
        match b.read_header with
        | none => odb_read_header_loop id rest error out
        | some f => odb_read_header_loop id rest (f id).1 (some (f id).2)
      else (error, out)

/-- `git_odb_read_header` from `src/odb.c`: probes the header-capable
backends; if none succeeded, falls back to a full `git_odb_read` followed
by `git_rawobj_close` on the out parameter. -/
def git_odb_read_header (db : git_odb) (id : git_oid) : Int × Option git_rawobj :=
  let r := odb_read_header_loop id db.backends GIT_ENOTFOUND none
  if r.1 < 0 then
    let r2 := git_odb_read db id
    (r2.1, r2.2.map git_rawobj_close)
  else r

/-- The probe loop of `git_odb_write`: backends without the `write` hook
are skipped without touching the error. -/
def odb_write_loop (obj : git_rawobj) :
    List git_odb_backend → Int → Option git_oid → Int × Option git_oid
  | [], error, out => (error, out)
  | b :: rest, error, out =>
      if error < 0 then
        match b.write with
        | none => odb_write_loop obj rest error out
        | some f => odb_write_loop obj rest (f obj).1 (some (f obj).2)
      else (error, out)

/-- `git_odb_write` from `src/odb.c`: probes write-capable backends in
stored order starting from `GIT_ERROR`. -/
def git_odb_write (db : git_odb) (obj : git_rawobj) : Int × Option git_oid :=
  odb_write_loop obj db.backends GIT_ERROR none

/-! ### ODB probe-loop lemmas -/

theorem odb_read_loop_stop (id : git_oid) (bs : List git_odb_backend)
    (e : Int) (out : Option git_rawobj) (he : 0 ≤ e) :
    odb_read_loop id bs e out = (e, out) := by
  cases bs with
  | nil => rfl
  | cons b rest => simp [odb_read_loop, not_lt.mpr he]

theorem odb_read_loop_first_success (id : git_oid) :
    ∀ (bs1 : List git_odb_backend) (b : git_odb_backend)
      (bs2 : List git_odb_backend) (e : Int) (out : Option git_rawobj),
      (∀ b1 ∈ bs1, (b1.read id).1 < 0) → 0 ≤ (b.read id).1 → e < 0 →
      odb_read_loop id (bs1 ++ b :: bs2) e out =
        ((b.read id).1, some (b.read id).2) := by
  intro bs1
  induction bs1 with
  | nil =>
    intro b bs2 e out _ hb he
    simp only [List.nil_append, odb_read_loop, if_pos he]
    exact odb_read_loop_stop id bs2 _ _ hb
  | cons b1 rest ih =>
    intro b bs2 e out hfail hb he
    simp only [List.cons_append, odb_read_loop, if_pos he]
    exact ih b bs2 _ _ (fun x hx => hfail x (List.mem_cons_of_mem _ hx)) hb
      (hfail b1 (List.mem_cons_self _ _))

theorem odb_read_loop_all_notfound (id : git_oid) :
    ∀ (bs : List git_odb_backend) (out : Option git_rawobj),
      (∀ b ∈ bs, (b.read id).1 = GIT_ENOTFOUND) →
      (odb_read_loop id bs GIT_ENOTFOUND out).1 = GIT_ENOTFOUND := by
  intro bs
  induction bs with
  | nil => intro out _; rfl
  | cons b rest ih =>
    intro out hall
    have hb := hall b (List.mem_cons_self _ _)
    simp only [odb_read_loop, if_pos (show GIT_ENOTFOUND < 0 by decide)]
    rw [hb]
    exact ih _ (fun x hx => hall x (List.mem_cons_of_mem _ hx))

/-- C5 (amended): `git_odb_read` probes the backends in their stored
order and the first backend to succeed determines the returned raw
object; if every backend reports not-found the call fails with
`GIT_ENOTFOUND`.  (The converse of the claim's "iff" fails: on total
failure the code returns the *last* backend's error, so `GIT_ENOTFOUND`
can also be returned when an earlier backend failed differently — see the
counterexample.) -/
theorem C5_odb_read_probe_order :
    (∀ (db : git_odb) (id : git_oid) (bs1 : List git_odb_backend)
       (b : git_odb_backend) (bs2 : List git_odb_backend),
       db.backends = bs1 ++ b :: bs2 →
       (∀ b1 ∈ bs1, (b1.read id).1 < 0) → 0 ≤ (b.read id).1 →
       git_odb_read db id = ((b.read id).1, some (b.read id).2)) ∧
    (∀ (db : git_odb) (id : git_oid),
       (∀ b ∈ db.backends, (b.read id).1 = GIT_ENOTFOUND) →
       (git_odb_read db id).1 = GIT_ENOTFOUND) := by
  constructor
  · intro db id bs1 b bs2 hsplit hfail hb
    rw [git_odb_read, hsplit]
    exact odb_read_loop_first_success id bs1 b bs2 _ _ hfail hb (by decide)
  · intro db id hall
    exact odb_read_loop_all_notfound id db.backends none hall

/-- Witness for C5: a two-backend ODB where the first fails not-found and
the second succeeds returns the second backend's object; an ODB whose
single backend reports not-found returns `GIT_ENOTFOUND`. -/
theorem C5_odb_read_probe_order_witness :
    git_odb_read
      ⟨[⟨1, fun _ => (GIT_ENOTFOUND, ⟨0, none, 0⟩), none, none, none⟩,
        ⟨0, fun _ => (GIT_SUCCESS, ⟨3, some [104], 1⟩), none, none, none⟩]⟩
      ⟨[7]⟩ = (GIT_SUCCESS, some ⟨3, some [104], 1⟩) ∧
    (git_odb_read ⟨[⟨1, fun _ => (GIT_ENOTFOUND, ⟨0, none, 0⟩), none, none, none⟩]⟩
      ⟨[7]⟩).1 = GIT_ENOTFOUND := by
  constructor
  · exact C5_odb_read_probe_order.1
      ⟨[⟨1, fun _ => (GIT_ENOTFOUND, ⟨0, none, 0⟩), none, none, none⟩,
        ⟨0, fun _ => (GIT_SUCCESS, ⟨3, some [104], 1⟩), none, none, none⟩]⟩
      ⟨[7]⟩ [⟨1, fun _ => (GIT_ENOTFOUND, ⟨0, none, 0⟩), none, none, none⟩]
      ⟨0, fun _ => (GIT_SUCCESS, ⟨3, some [104], 1⟩), none, none, none⟩ []
      rfl (by intro b1 hb1; simp at hb1; subst hb1; decide) (by decide)
  · exact C5_odb_read_probe_order.2
      ⟨[⟨1, fun _ => (GIT_ENOTFOUND, ⟨0, none, 0⟩), none, none, none⟩]⟩ ⟨[7]⟩
      (by intro b hb; simp at hb; subst hb; decide)

/-- Counterexample for C5 as stated: with two backends whose reads fail
with `GIT_ERROR` and `GIT_ENOTFOUND` respectively, the call fails with
`GIT_ENOTFOUND` even though not every backend reported not-found (the
first reported `GIT_ERROR`), refuting the "only if" direction of the
claim's iff. -/
theorem C5_odb_read_notfound_cex :
    (git_odb_read
      ⟨[⟨1, fun _ => (GIT_ERROR, ⟨0, none, 0⟩), none, none, none⟩,
        ⟨0, fun _ => (GIT_ENOTFOUND, ⟨0, none, 0⟩), none, none, none⟩]⟩
      ⟨[7]⟩).1 = GIT_ENOTFOUND ∧
    ¬ (∀ b ∈ (git_odb.mk
        [⟨1, fun _ => (GIT_ERROR, ⟨0, none, 0⟩), none, none, none⟩,
         ⟨0, fun _ => (GIT_ENOTFOUND, ⟨0, none, 0⟩), none, none, none⟩]).backends,
        (b.read ⟨[7]⟩).1 = GIT_ENOTFOUND) := by
  constructor
  · rfl
  · intro hall
    have := hall ⟨1, fun _ => (GIT_ERROR, ⟨0, none, 0⟩), none, none, none⟩
      (List.mem_cons_self _ _)
    simp [GIT_ERROR, GIT_ENOTFOUND] at this

theorem odb_read_header_loop_fail (id : git_oid) :
    ∀ (bs : List git_odb_backend) (e : Int) (out : Option git_rawobj),
      e < 0 →
      (∀ b ∈ bs, ((b.read_header.map fun f => (f id).1).getD GIT_ERROR) < 0) →
      (odb_read_header_loop id bs e out).1 < 0 := by
  intro bs
  induction bs with
  | nil => intro e out he _; exact he
  | cons b rest ih =>
    intro e out he hall
    have hb := hall b (List.mem_cons_self _ _)
    have hrest := fun x hx => hall x (List.mem_cons_of_mem b hx)
    simp only [odb_read_header_loop, if_pos he]
    cases hf : b.read_header with
    | none => exact ih e out he hrest
    | some f =>
      rw [hf] at hb
      simp only [Option.map_some', Option.getD_some] at hb
      exact ih _ _ hb hrest

/-- C6: when every backend either lacks the `read_header` hook or fails
header-only reading for `id`, and a full read of `id` succeeds,
`git_odb_read_header` degrades to `git_odb_read` followed by an immediate
`git_rawobj_close`, so the caller receives the object's type and length
with the success code but no bytes (`data = none`). -/
theorem C6_read_header_fallback (db : git_odb) (id : git_oid)
    (e : Int) (ro : git_rawobj)
    (hhdr : ∀ b ∈ db.backends,
      ((b.read_header.map fun f => (f id).1).getD GIT_ERROR) < 0)
    (hread : git_odb_read db id = (e, some ro)) (he : 0 ≤ e) :
    git_odb_read_header db id = (e, some { ro with data := none }) := by
  have hfail : (odb_read_header_loop id db.backends GIT_ENOTFOUND none).1 < 0 :=
    odb_read_header_loop_fail id db.backends GIT_ENOTFOUND none (by decide) hhdr
  simp only [git_odb_read_header]
  rw [if_pos hfail, hread]
  rfl

/-- Witness for C6: a single backend without header support still yields
`{type = 2, length = 2}` and no bytes through the read-and-discard
fallback. -/
theorem C6_read_header_fallback_witness :
    git_odb_read_header
      ⟨[⟨0, fun _ => (GIT_SUCCESS, ⟨2, some [9, 9], 2⟩), none, none, none⟩]⟩
      ⟨[5]⟩ = (GIT_SUCCESS, some ⟨2, none, 2⟩) :=
  C6_read_header_fallback
    ⟨[⟨0, fun _ => (GIT_SUCCESS, ⟨2, some [9, 9], 2⟩), none, none, none⟩]⟩
    ⟨[5]⟩ GIT_SUCCESS ⟨2, some [9, 9], 2⟩
    (by intro b hb; simp at hb; subst hb; decide) (by decide) (by decide)

/-! ## The source slot and write buffer (`src/repository.c`) -/

def OBJECT_BASE_SIZE : Nat := 4096

/-- `git_odb_source`: per-object buffer slot.  The C `write_ptr` pointer
is modelled as the offset `write_off` from `raw.data` (`none` = NULL);
the C bitfield `open` is `is_open`.  When `raw.data = some bs`, the list
`bs` is the contents of the allocated buffer of capacity `raw.len`. -/
structure git_odb_source where
  raw : git_rawobj
  write_off : Option Nat
  written_bytes : Nat
  is_open : Bool
deriving DecidableEq, Repr

/-- `memcpy(data + off, bytes, bytes.length)` on a buffer modelled as a
list. -/
def write_at (data : List Nat) (off : Nat) (bytes : List Nat) : List Nat :=
  data.take off ++ bytes ++ data.drop (off + bytes.length)

/-- `vsnprintf(data + off, size, …)` for a render whose full (untruncated)
byte sequence is `rendered`: writes at most `size - 1` bytes plus a NUL,
or nothing at all when `size = 0`. -/
def vsnprintf_at (data : List Nat) (off size : Nat) (rendered : List Nat) : List Nat :=
  if size = 0 then data
  else write_at data off ((rendered.take (size - 1)) ++ [0])

/-- `source_resize` from `src/repository.c`: doubles the buffer capacity,
copies the first `written_bytes` bytes into the new allocation, and
repositions the cursor at the same offset (allocation is modelled as
always succeeding; fresh bytes are modelled as zero). -/
def source_resize (src : git_odb_source) : git_odb_source :=
  let off := src.write_off.getD 0
  let new_size := src.raw.len * 2
  let new_data :=
    (((src.raw.data.getD []).take src.written_bytes) ++
      List.replicate new_size 0).take new_size
  { src with
    raw := { src.raw with data := some new_data, len := new_size },
    write_off := some off }

/-- The `while (written_bytes + len >= raw.len) source_resize(...)` loop
shared by `git__source_write` and `git__source_printf`.  When
`raw.len = 0` the C loop never terminates (doubling zero stays zero);
that unreachable case (`prepare_write` always installs capacity 4096) is
modelled as the identity. -/
def source_write_loop (src : git_odb_source) (len : Nat) : git_odb_source :=
  if src.raw.len = 0 then src
  else if src.written_bytes + len ≥ src.raw.len then
    source_write_loop (source_resize src) len
  else src
termination_by src.written_bytes + len + 1 - src.raw.len
decreasing_by
  simp only [source_resize]
  omega

/-- `git__source_write` from `src/repository.c`: grows the buffer until
the append fits strictly below capacity, copies the bytes at the cursor,
and advances cursor and count.  The C `assert(source->open &&
source->write_ptr)` is modelled by the two error guards. -/
def git__source_write (source : git_odb_source) (bytes : List Nat) : Int × git_odb_source :=
  if source.is_open = false then (GIT_ERROR, source)
  else match source.write_off with
  | none => (GIT_ERROR, source)
  | some _ =>
    let grown := source_write_loop source bytes.length
    let off := grown.write_off.getD 0
    (GIT_SUCCESS,
     { grown with
       raw := { grown.raw with
                data := some (write_at (grown.raw.data.getD []) off bytes) },
       write_off := some (off + bytes.length),
       written_bytes := grown.written_bytes + bytes.length })

/-- `git__source_printf` from `src/repository.c`, abstracted over the
formatted render `rendered` (the full byte sequence `vsnprintf` would
produce): renders into the remaining space (truncating), resizes until
the render fits strictly below capacity and, if any resize happened,
renders again at the repositioned cursor; then advances cursor and count
by the render length. -/
def git__source_printf (source : git_odb_source) (rendered : List Nat) : Int × git_odb_source :=
  if source.is_open = false then (GIT_ERROR, source)
  else match source.write_off with
  | none => (GIT_ERROR, source)
  | some off =>
    let len := rendered.length
    let data1 := vsnprintf_at (source.raw.data.getD []) off
        (source.raw.len - source.written_bytes) rendered
    let src1 := { source with raw := { source.raw with data := some data1 } }
    if src1.written_bytes + len < src1.raw.len then
      (GIT_SUCCESS, { src1 with
        write_off := some (off + len),
        written_bytes := src1.written_bytes + len })
    else
      let src2 := source_write_loop src1 len
      let off2 := src2.write_off.getD 0
      let data3 := vsnprintf_at (src2.raw.data.getD []) off2
          (src2.raw.len - src2.written_bytes) rendered
      let src3 := { src2 with raw := { src2.raw with data := some data3 } }
      (GIT_SUCCESS, { src3 with
        write_off := some (off2 + len),
        written_bytes := src3.written_bytes + len })

/-- `git_object__source_close` from `src/repository.c`, acting on the
slot: releases the raw buffer and clears the open flag. -/
def git_object__source_close_src (s : git_odb_source) : git_odb_source :=
  if s.is_open then { s with raw := git_rawobj_close s.raw, is_open := false } else s

/-- `prepare_write` from `src/repository.c`, acting on the slot: closes
any previous buffer, installs a fresh 4096-byte allocation (modelled
zero-filled), cursor at the start, slot open. -/
def prepare_write_source (s : git_odb_source) : git_odb_source :=
  let s := if s.write_off ≠ none ∨ s.is_open then git_object__source_close_src s else s
  { s with
    raw := { s.raw with
             data := some (List.replicate OBJECT_BASE_SIZE 0)
             len := OBJECT_BASE_SIZE },
    write_off := some 0,
    written_bytes := 0,
    is_open := true }

theorem source_write_loop_props : ∀ (m : Nat) (s : git_odb_source) (len off : Nat),
    s.written_bytes + len + 1 - s.raw.len ≤ m → 0 < s.raw.len →
    s.write_off = some off →
    (source_write_loop s len).written_bytes = s.written_bytes ∧
    (source_write_loop s len).write_off = some off ∧
    (source_write_loop s len).is_open = s.is_open ∧
    s.written_bytes + len < (source_write_loop s len).raw.len := by
  intro m
  induction m with
  | zero =>
    intro s len off hm h0 hoff
    unfold source_write_loop
    rw [if_neg (by omega), if_neg (by omega)]
    exact ⟨rfl, hoff, rfl, by omega⟩
  | succ m ih =>
    intro s len off hm h0 hoff
    unfold source_write_loop
    rw [if_neg (by omega)]
    by_cases hc : s.written_bytes + len ≥ s.raw.len
    · rw [if_pos hc]
      have hres_len : (source_resize s).raw.len = s.raw.len * 2 := rfl
      have hres_wb : (source_resize s).written_bytes = s.written_bytes := rfl
      have hres_open : (source_resize s).is_open = s.is_open := rfl
      have hres_off : (source_resize s).write_off = some off := by
        simp [source_resize, hoff]
      obtain ⟨a, b, c, d⟩ := ih (source_resize s) len off
        (by rw [hres_wb, hres_len]; omega) (by rw [hres_len]; omega) hres_off
      exact ⟨by rw [a, hres_wb], b, by rw [c, hres_open], by rw [hres_wb] at d; exact d⟩
    · rw [if_neg hc]
      exact ⟨rfl, hoff, rfl, by omega⟩

theorem source_resize_preserves (s : git_odb_source) (bs : List Nat)
    (hdata : s.raw.data = some bs) (hlen : s.written_bytes ≤ bs.length)
    (hcap : s.written_bytes ≤ s.raw.len * 2) :
    ((source_resize s).raw.data.getD []).take s.written_bytes =
      bs.take s.written_bytes := by
  simp only [source_resize, hdata, Option.getD_some]
  rw [List.take_take, Nat.min_comm, Nat.min_eq_right hcap,
    List.take_append_of_le_length (by simp [List.length_take]; omega),
    List.take_take, Nat.min_self]

/-- C8: the write buffer starts at capacity 4096; `source_resize` doubles
the capacity, preserves the already-written prefix and repositions the
cursor at the same offset; the grow loop resizes exactly when an append
would equal or exceed the current capacity; and after every successful
`git__source_write` or `git__source_printf` on an open source (with the
cursor at `raw.data + written_bytes`, the slot invariant), the result
satisfies `written_bytes ≤ raw.len` and
`write_ptr = raw.data + written_bytes`. -/
theorem C8_write_buffer_invariant :
    (∀ s : git_odb_source,
       (prepare_write_source s).raw.len = 4096 ∧
       (prepare_write_source s).write_off = some 0 ∧
       (prepare_write_source s).written_bytes = 0 ∧
       (prepare_write_source s).is_open = true) ∧
    (∀ s : git_odb_source,
       (source_resize s).raw.len = s.raw.len * 2 ∧
       (source_resize s).written_bytes = s.written_bytes ∧
       (∀ off, s.write_off = some off → (source_resize s).write_off = some off) ∧
       (∀ bs, s.raw.data = some bs → s.written_bytes ≤ bs.length →
          s.written_bytes ≤ s.raw.len * 2 →
          ((source_resize s).raw.data.getD []).take s.written_bytes =
            bs.take s.written_bytes)) ∧
    (∀ (s : git_odb_source) (len : Nat), 0 < s.raw.len →
       (s.written_bytes + len < s.raw.len → source_write_loop s len = s) ∧
       (s.raw.len ≤ s.written_bytes + len →
          source_write_loop s len = source_write_loop (source_resize s) len)) ∧
    (∀ (s : git_odb_source) (bytes : List Nat),
       s.is_open = true → s.write_off = some s.written_bytes → 0 < s.raw.len →
       (git__source_write s bytes).1 = GIT_SUCCESS ∧
       ((git__source_write s bytes).2).written_bytes ≤
         ((git__source_write s bytes).2).raw.len ∧
       ((git__source_write s bytes).2).write_off =
         some ((git__source_write s bytes).2).written_bytes) ∧
    (∀ (s : git_odb_source) (rendered : List Nat),
       s.is_open = true → s.write_off = some s.written_bytes → 0 < s.raw.len →
       (git__source_printf s rendered).1 = GIT_SUCCESS ∧
       ((git__source_printf s rendered).2).written_bytes ≤
         ((git__source_printf s rendered).2).raw.len ∧
       ((git__source_printf s rendered).2).write_off =
         some ((git__source_printf s rendered).2).written_bytes) := by
  refine ⟨?_, ?_, ?_, ?_, ?_⟩
  · intro s
    exact ⟨rfl, rfl, rfl, rfl⟩
  · intro s
    exact ⟨rfl, rfl, fun off hoff => by simp [source_resize, hoff],
      fun bs h1 h2 h3 => source_resize_preserves s bs h1 h2 h3⟩
  · intro s len h0
    constructor
    · intro hfit
      rw [source_write_loop.eq_def, if_neg (by omega), if_neg (by omega)]
    · intro hgrow
      rw [source_write_loop.eq_def, if_neg (by omega), if_pos (by omega)]
  · intro s bytes hopen hoff h0
    obtain ⟨⟨ty, dat, L⟩, woff, wb, op⟩ := s
    simp only at hopen hoff h0
    subst hopen hoff
    obtain ⟨ha, hb, hc, hd⟩ := source_write_loop_props (wb + bytes.length + 1)
      ⟨⟨ty, dat, L⟩, some wb, wb, true⟩ bytes.length wb (Nat.sub_le _ _) h0 rfl
    refine ⟨rfl, ?_, ?_⟩
    · show (source_write_loop ⟨⟨ty, dat, L⟩, some wb, wb, true⟩ bytes.length).written_bytes
          + bytes.length ≤
        (source_write_loop ⟨⟨ty, dat, L⟩, some wb, wb, true⟩ bytes.length).raw.len
      omega
    · show some ((source_write_loop ⟨⟨ty, dat, L⟩, some wb, wb, true⟩
          bytes.length).write_off.getD 0 + bytes.length) =
        some ((source_write_loop ⟨⟨ty, dat, L⟩, some wb, wb, true⟩
          bytes.length).written_bytes + bytes.length)
      rw [hb, ha]
      rfl
  · intro s rendered hopen hoff h0
    obtain ⟨⟨ty, dat, L⟩, woff, wb, op⟩ := s
    simp only at hopen hoff h0
    subst hopen hoff
    simp only [git__source_printf]
    rw [if_neg (show ¬ ((true : Bool) = false) by decide)]
    by_cases hfit : wb + rendered.length < L
    · rw [if_pos hfit]
      exact ⟨rfl, by show wb + rendered.length ≤ L; omega, rfl⟩
    · rw [if_neg hfit]
      obtain ⟨ha, hb, hc, hd⟩ := source_write_loop_props (wb + rendered.length + 1)
        ⟨⟨ty, some (vsnprintf_at (dat.getD []) wb (L - wb) rendered), L⟩,
          some wb, wb, true⟩ rendered.length wb (Nat.sub_le _ _) h0 rfl
      refine ⟨rfl, ?_, ?_⟩
      · show (source_write_loop ⟨⟨ty, some (vsnprintf_at (dat.getD []) wb (L - wb)
            rendered), L⟩, some wb, wb, true⟩ rendered.length).written_bytes +
            rendered.length ≤
          (source_write_loop ⟨⟨ty, some (vsnprintf_at (dat.getD []) wb (L - wb)
            rendered), L⟩, some wb, wb, true⟩ rendered.length).raw.len
        omega
      · show some ((source_write_loop ⟨⟨ty, some (vsnprintf_at (dat.getD []) wb (L - wb)
            rendered), L⟩, some wb, wb, true⟩ rendered.length).write_off.getD 0 +
            rendered.length) =
          some ((source_write_loop ⟨⟨ty, some (vsnprintf_at (dat.getD []) wb (L - wb)
            rendered), L⟩, some wb, wb, true⟩ rendered.length).written_bytes +
            rendered.length)
        rw [hb, ha]
        rfl

/-- Witness for C8: a 3-byte write and a 2-byte formatted render on a
freshly prepared slot succeed and maintain the slot invariant. -/
theorem C8_write_buffer_invariant_witness :
    (prepare_write_source ⟨⟨3, none, 0⟩, none, 0, false⟩).is_open = true ∧
    0 < (prepare_write_source ⟨⟨3, none, 0⟩, none, 0, false⟩).raw.len ∧
    (git__source_write (prepare_write_source ⟨⟨3, none, 0⟩, none, 0, false⟩)
      [97, 98, 99]).1 = GIT_SUCCESS ∧
    ((git__source_write (prepare_write_source ⟨⟨3, none, 0⟩, none, 0, false⟩)
      [97, 98, 99]).2).written_bytes ≤
      ((git__source_write (prepare_write_source ⟨⟨3, none, 0⟩, none, 0, false⟩)
        [97, 98, 99]).2).raw.len ∧
    ((git__source_write (prepare_write_source ⟨⟨3, none, 0⟩, none, 0, false⟩)
      [97, 98, 99]).2).write_off =
      some ((git__source_write (prepare_write_source ⟨⟨3, none, 0⟩, none, 0, false⟩)
        [97, 98, 99]).2).written_bytes ∧
    (git__source_printf (prepare_write_source ⟨⟨3, none, 0⟩, none, 0, false⟩)
      [52, 50]).1 = GIT_SUCCESS ∧
    ((git__source_printf (prepare_write_source ⟨⟨3, none, 0⟩, none, 0, false⟩)
      [52, 50]).2).write_off =
      some ((git__source_printf (prepare_write_source ⟨⟨3, none, 0⟩, none, 0, false⟩)
        [52, 50]).2).written_bytes :=
  ⟨rfl, by decide,
   (C8_write_buffer_invariant.2.2.2.1 (prepare_write_source ⟨⟨3, none, 0⟩, none, 0, false⟩)
      [97, 98, 99] rfl rfl (by decide)).1,
   (C8_write_buffer_invariant.2.2.2.1 (prepare_write_source ⟨⟨3, none, 0⟩, none, 0, false⟩)
      [97, 98, 99] rfl rfl (by decide)).2.1,
   (C8_write_buffer_invariant.2.2.2.1 (prepare_write_source ⟨⟨3, none, 0⟩, none, 0, false⟩)
      [97, 98, 99] rfl rfl (by decide)).2.2,
   (C8_write_buffer_invariant.2.2.2.2 (prepare_write_source ⟨⟨3, none, 0⟩, none, 0, false⟩)
      [52, 50] rfl rfl (by decide)).1,
   (C8_write_buffer_invariant.2.2.2.2 (prepare_write_source ⟨⟨3, none, 0⟩, none, 0, false⟩)
      [52, 50] rfl rfl (by decide)).2.2⟩

/-! ## Typed objects, cache and repository (`src/repository.c`)

Objects live on a heap modelled as a list; a C object pointer is the
object's index in that list.  The owning-repository pointer of each
object is implicit: the model is single-repository, every function takes
the repository state alongside the object index. -/

/-- `git_object`: the common envelope (digest, source slot, the
`in_memory` and `modified` bitfields).  The type-specific payload
(commit/tree/blob/tag fields) is external to the translated sources and
not modelled. -/
structure git_object where
  id : git_oid
  source : git_odb_source
  in_memory : Bool
  modified : Bool
deriving DecidableEq, Repr

/-- Modelled from the spec (§4.7, the hashtable lives outside the
translated sources): cache lookup by digest — full-digest equality
resolves the binding. -/
def cache_lookup (c : List (git_oid × Nat)) (k : git_oid) : Option Nat :=
  (c.find? (fun p => p.1 == k)).map (fun p => p.2)

/-- Modelled from the spec (§4.7): removal by digest. -/
def cache_remove (c : List (git_oid × Nat)) (k : git_oid) : List (git_oid × Nat) :=
  c.filter (fun p => ¬ p.1 == k)

/-- Modelled from the spec (§4.7): insertion overwrites any pre-existing
binding for the same digest. -/
def cache_insert (c : List (git_oid × Nat)) (k : git_oid) (v : Nat) :
    List (git_oid × Nat) :=
  (k, v) :: cache_remove c k

/-- `git_repository` (the cache-relevant fields): the digest → object
table and the object heap. -/
structure git_repository where
  objects : List (git_oid × Nat)
  heap : List git_object
deriving DecidableEq, Repr

/-- `git_object_id` from `src/repository.c`: NULL for a never-written
in-memory object, otherwise a pointer to the stored digest. -/
def git_object_id (obj : git_object) : Option git_oid :=
  if obj.in_memory then none else some obj.id

/-- `git_repository_newobject` from `src/repository.c`: valid only for
the four loose types; allocates a zero-filled object with `in_memory`
and `modified` set and the source-slot type stamped.  Returns the error
code, the fresh object's pointer, and the new state. -/
def git_repository_newobject (repo : git_repository) (otype : Int) :
    Int × Option Nat × git_repository :=
  if otype = GIT_OBJ_COMMIT ∨ otype = GIT_OBJ_TAG ∨ otype = GIT_OBJ_TREE ∨
      otype = GIT_OBJ_BLOB then
    let object : git_object :=
      { id := ⟨List.replicate 20 0⟩,
        source := { raw := { type := otype, data := none, len := 0 },
                    write_off := none, written_bytes := 0, is_open := false },
        in_memory := true, modified := true }
    (GIT_SUCCESS, some repo.heap.length, { repo with heap := repo.heap ++ [object] })
  else (GIT_EINVALIDTYPE, none, repo)

/-- The result of `git_repository_lookup`: error code, returned object
pointer, resulting repository state, and whether the raw byte buffer
obtained from `git_odb_read` had been released again by return time
(`true` on paths where no buffer was obtained). -/
structure lookup_result where
  err : Int
  ptr : Option Nat
  repo : git_repository
  raw_released : Bool
deriving DecidableEq, Repr

/-- `git_repository_lookup` from `src/repository.c`, abstracted over the
type-specific parsers (`parse type raw` returns the parser's error code;
the parsed payload itself is not modelled).  Paths, in source order:
cache hit; ODB read failure; type mismatch (note: the raw buffer is not
closed on this path); parse dispatch (the switch's default branch leaves
the error at the read's non-negative result); parse failure
(`git_object_free`: close the slot, remove the digest from the cache — a
no-op, the digest was a miss); success (close the slot, insert). -/
def git_repository_lookup (parse : Int → git_rawobj → Int) (db : git_odb)
    (repo : git_repository) (id : git_oid) (otype : Int) : lookup_result :=
  match cache_lookup repo.objects id with
  | some p => ⟨GIT_SUCCESS, some p, repo, true⟩
  | none =>
    let r := git_odb_read db id
    if r.1 < 0 then ⟨r.1, none, repo, true⟩
    else
      let obj_file := r.2.getD ⟨GIT_OBJ_BAD, none, 0⟩
      if otype ≠ GIT_OBJ_ANY ∧ otype ≠ obj_file.type then
        ⟨GIT_EINVALIDTYPE, none, repo, false⟩
      else
        let object : git_object :=
          { id := id,
            source := { raw := obj_file, write_off := none,
                        written_bytes := 0, is_open := true },
            in_memory := false, modified := false }
        let e := if obj_file.type = GIT_OBJ_COMMIT ∨ obj_file.type = GIT_OBJ_TREE ∨
            obj_file.type = GIT_OBJ_TAG ∨ obj_file.type = GIT_OBJ_BLOB then
          parse obj_file.type obj_file
        else r.1
        if e < 0 then
          ⟨e, none, { repo with objects := cache_remove repo.objects id }, true⟩
        else
          let object := { object with source := git_object__source_close_src object.source }
          ⟨GIT_SUCCESS, some repo.heap.length,
           { objects := cache_insert repo.objects id repo.heap.length,
             heap := repo.heap ++ [object] }, true⟩

/-- `write_back` from `src/repository.c`: trim the buffer length to the
written count, write through the ODB, unbind the old digest when the
object was not in-memory, copy in the new digest, rebind, clear cursors
and flags, close the slot.  On ODB-write failure the error propagates
with only the length trim applied (the slot stays open). -/
def write_back (db : git_odb) (repo : git_repository) (p : Nat) : Int × git_repository :=
  match repo.heap.get? p with
  | none => (GIT_ERROR, repo)
  | some obj =>
    let obj1 := { obj with source := { obj.source with
      raw := { obj.source.raw with len := obj.source.written_bytes } } }
    let r := git_odb_write db obj1.source.raw
    if r.1 < 0 then (r.1, { repo with heap := repo.heap.set p obj1 })
    else
      let new_id := r.2.getD obj1.id
      let objects1 := if obj1.in_memory then repo.objects
        else cache_remove repo.objects obj1.id
      let objects2 := cache_insert objects1 new_id p
      let obj2 := { obj1 with
        id := new_id,
        source := git_object__source_close_src
          { obj1.source with write_off := none, written_bytes := 0 },
        modified := false, in_memory := false }
      (GIT_SUCCESS, { objects := objects2, heap := repo.heap.set p obj2 })

/-- `git_object_write` from `src/repository.c`, abstracted over the
type-specific serializers (`ser type source` returns the serializer's
error code and the source slot it produced by `git__source_write` /
`git__source_printf` calls).  A clean object is a no-op; otherwise the
slot is prepared, the serializer dispatched by the slot's raw type (the
switch's default branch yields `GIT_ERROR`), a serializer failure closes
the slot and propagates, and success continues into `write_back`. -/
def git_object_write (ser : Int → git_odb_source → Int × git_odb_source)
    (db : git_odb) (repo : git_repository) (p : Nat) : Int × git_repository :=
  match repo.heap.get? p with
  | none => (GIT_ERROR, repo)
  | some obj =>
    if obj.modified = false then (GIT_SUCCESS, repo)
    else
      let obj := { obj with source := prepare_write_source obj.source }
      let t := obj.source.raw.type
      if t = GIT_OBJ_COMMIT ∨ t = GIT_OBJ_TREE ∨ t = GIT_OBJ_TAG ∨ t = GIT_OBJ_BLOB then
        let r := ser t obj.source
        let obj2 := { obj with source := r.2 }
        if r.1 < 0 then
          let obj3 := { obj2 with source := git_object__source_close_src obj2.source }
          (r.1, { repo with heap := repo.heap.set p obj3 })
        else
          write_back db { repo with heap := repo.heap.set p obj2 } p
      else
        let obj4 := { obj with source := git_object__source_close_src obj.source }
        (GIT_ERROR, { repo with heap := repo.heap.set p obj4 })

theorem cache_lookup_insert (c : List (git_oid × Nat)) (k : git_oid) (v : Nat) :
    cache_lookup (cache_insert c k v) k = some v := by
  simp [cache_lookup, cache_insert, List.find?_cons_of_pos]

theorem lookup_success_binds (parse : Int → git_rawobj → Int) (db : git_odb)
    (repo : git_repository) (d : git_oid) (T : Int)
    (h : (git_repository_lookup parse db repo d T).err = GIT_SUCCESS) :
    ∃ p, (git_repository_lookup parse db repo d T).ptr = some p ∧
      cache_lookup ((git_repository_lookup parse db repo d T).repo).objects d =
        some p := by
  cases hcl : cache_lookup repo.objects d with
  | some p =>
    refine ⟨p, ?_, ?_⟩ <;> simp [git_repository_lookup, hcl]
  | none =>
    simp only [git_repository_lookup, hcl] at h ⊢
    by_cases hr : (git_odb_read db d).1 < 0
    · rw [if_pos hr] at h
      simp only [GIT_SUCCESS] at h
      omega
    · rw [if_neg hr] at h ⊢
      by_cases hty : T ≠ GIT_OBJ_ANY ∧
          T ≠ ((git_odb_read db d).2.getD ⟨GIT_OBJ_BAD, none, 0⟩).type
      · rw [if_pos hty] at h
        simp only [GIT_EINVALIDTYPE, GIT_SUCCESS] at h
        omega
      · rw [if_neg hty] at h ⊢
        by_cases he : (if ((git_odb_read db d).2.getD ⟨GIT_OBJ_BAD, none, 0⟩).type =
              GIT_OBJ_COMMIT ∨
            ((git_odb_read db d).2.getD ⟨GIT_OBJ_BAD, none, 0⟩).type = GIT_OBJ_TREE ∨
            ((git_odb_read db d).2.getD ⟨GIT_OBJ_BAD, none, 0⟩).type = GIT_OBJ_TAG ∨
            ((git_odb_read db d).2.getD ⟨GIT_OBJ_BAD, none, 0⟩).type = GIT_OBJ_BLOB then
            parse ((git_odb_read db d).2.getD ⟨GIT_OBJ_BAD, none, 0⟩).type
              ((git_odb_read db d).2.getD ⟨GIT_OBJ_BAD, none, 0⟩)
          else (git_odb_read db d).1) < 0
        · rw [if_pos he] at h
          simp only [GIT_SUCCESS] at h
          omega
        · rw [if_neg he]
          exact ⟨repo.heap.length, rfl, cache_lookup_insert _ _ _⟩

/-- C4: a lookup on a digest already bound in the cache returns the
cached instance with success regardless of the expected type (no type
check on hits), and consequently two successive lookups of the same
digest with no intervening write or free return the same object
identity. -/
theorem C4_lookup_cache_hit :
    (∀ (parse : Int → git_rawobj → Int) (db : git_odb) (repo : git_repository)
       (d : git_oid) (T : Int) (p : Nat),
       cache_lookup repo.objects d = some p →
       git_repository_lookup parse db repo d T = ⟨GIT_SUCCESS, some p, repo, true⟩) ∧
    (∀ (parse : Int → git_rawobj → Int) (db : git_odb) (repo : git_repository)
       (d : git_oid) (T T' : Int),
       (git_repository_lookup parse db repo d T).err = GIT_SUCCESS →
       git_repository_lookup parse db (git_repository_lookup parse db repo d T).repo
           d T' =
         ⟨GIT_SUCCESS, (git_repository_lookup parse db repo d T).ptr,
          (git_repository_lookup parse db repo d T).repo, true⟩) := by
  constructor
  · intro parse db repo d T p hcl
    simp [git_repository_lookup, hcl]
  · intro parse db repo d T T' h
    obtain ⟨p, hptr, hbind⟩ := lookup_success_binds parse db repo d T h
    rw [hptr]
    generalize (git_repository_lookup parse db repo d T).repo = R at hbind ⊢
    simp [git_repository_lookup, hbind]

/-- Witness for C4: a blob is materialized by a first lookup with `ANY`;
a second lookup of the same digest — even with the mismatching expected
type `COMMIT` — returns the same cached instance. -/
theorem C4_lookup_cache_hit_witness :
    git_repository_lookup (fun _ _ => GIT_SUCCESS)
        ⟨[⟨0, fun _ => (GIT_SUCCESS, ⟨3, some [104], 1⟩), none, none, none⟩]⟩
        (git_repository_lookup (fun _ _ => GIT_SUCCESS)
          ⟨[⟨0, fun _ => (GIT_SUCCESS, ⟨3, some [104], 1⟩), none, none, none⟩]⟩
          ⟨[], []⟩ ⟨[1]⟩ GIT_OBJ_ANY).repo ⟨[1]⟩ GIT_OBJ_COMMIT =
      ⟨GIT_SUCCESS,
       (git_repository_lookup (fun _ _ => GIT_SUCCESS)
          ⟨[⟨0, fun _ => (GIT_SUCCESS, ⟨3, some [104], 1⟩), none, none, none⟩]⟩
          ⟨[], []⟩ ⟨[1]⟩ GIT_OBJ_ANY).ptr,
       (git_repository_lookup (fun _ _ => GIT_SUCCESS)
          ⟨[⟨0, fun _ => (GIT_SUCCESS, ⟨3, some [104], 1⟩), none, none, none⟩]⟩
          ⟨[], []⟩ ⟨[1]⟩ GIT_OBJ_ANY).repo, true⟩ :=
  C4_lookup_cache_hit.2 (fun _ _ => GIT_SUCCESS)
    ⟨[⟨0, fun _ => (GIT_SUCCESS, ⟨3, some [104], 1⟩), none, none, none⟩]⟩
    ⟨[], []⟩ ⟨[1]⟩ GIT_OBJ_ANY GIT_OBJ_COMMIT (by decide)

/-- C2 (the claim as the code actually behaves): looking up an uncached
digest whose on-disk object is a tree with expected type `COMMIT` fails
with `GIT_EINVALIDTYPE` and leaves the cache (indeed the whole state)
unchanged — but the raw object's byte buffer obtained from the ODB read
is *not* released (`raw_released = false`): `git_repository_lookup`
returns straight out of the type check without `git_rawobj_close`,
leaking the buffer, where the claim and spec require the release. -/
theorem C2_lookup_invalid_type_no_release :
    git_repository_lookup (fun _ _ => GIT_SUCCESS)
        ⟨[⟨0, fun _ => (GIT_SUCCESS, ⟨2, some [1, 2], 2⟩), none, none, none⟩]⟩
        ⟨[], []⟩ ⟨[9]⟩ GIT_OBJ_COMMIT =
      ⟨GIT_EINVALIDTYPE, none, ⟨[], []⟩, false⟩ := by
  decide

theorem prepare_write_source_type (s : git_odb_source) :
    (prepare_write_source s).raw.type = s.raw.type := by
  simp only [prepare_write_source, git_object__source_close_src, git_rawobj_close]
  split_ifs <;> rfl

theorem get?_some_lt {α : Type} (l : List α) (p : Nat) (a : α)
    (h : l.get? p = some a) : p < l.length := by
  by_contra hc
  rw [List.get?_eq_none.mpr (by omega)] at h
  exact Option.noConfusion h

/-- C3: a successful `git_object_write` on a modified object clears
`modified` and `in_memory`, closes the slot, rebinds the cache under the
new digest after unbinding the old one (the unbind applies exactly when
the object was not in-memory, i.e. was previously cached), and a
subsequent `lookup` of the new digest with `ANY` returns the very same
instance (the same heap pointer `p`). -/
theorem C3_object_write_success
    (ser : Int → git_odb_source → Int × git_odb_source)
    (parse : Int → git_rawobj → Int) (db : git_odb) (repo : git_repository)
    (p : Nat) (obj : git_object) (e : Int) (nid : git_oid)
    (hp : repo.heap.get? p = some obj)
    (hmod : obj.modified = true)
    (hty : obj.source.raw.type = GIT_OBJ_COMMIT ∨ obj.source.raw.type = GIT_OBJ_TREE ∨
      obj.source.raw.type = GIT_OBJ_TAG ∨ obj.source.raw.type = GIT_OBJ_BLOB)
    (hser : 0 ≤ (ser obj.source.raw.type (prepare_write_source obj.source)).1)
    (hsrc_open :
      ((ser obj.source.raw.type (prepare_write_source obj.source)).2).is_open = true)
    (hw : git_odb_write db
        { ((ser obj.source.raw.type (prepare_write_source obj.source)).2).raw with
          len := ((ser obj.source.raw.type
            (prepare_write_source obj.source)).2).written_bytes } = (e, some nid))
    (he : 0 ≤ e) :
    ∃ obj2 : git_object,
      git_object_write ser db repo p =
        (GIT_SUCCESS,
         { objects := cache_insert
             (if obj.in_memory then repo.objects else cache_remove repo.objects obj.id)
             nid p,
           heap := repo.heap.set p obj2 }) ∧
      obj2.id = nid ∧ obj2.modified = false ∧ obj2.in_memory = false ∧
      obj2.source.is_open = false ∧
      git_repository_lookup parse db (git_object_write ser db repo p).2 nid
          GIT_OBJ_ANY =
        ⟨GIT_SUCCESS, some p, (git_object_write ser db repo p).2, true⟩ := by
  have hlt : p < repo.heap.length := get?_some_lt _ _ _ hp
  simp only [git_object_write, hp, hmod]
  rw [if_neg (show ¬ ((true : Bool) = false) by decide)]
  rw [prepare_write_source_type, if_pos hty, if_neg (not_lt.mpr hser)]
  simp only [write_back, List.get?_set_eq_of_lt _ hlt]
  rw [hw, if_neg (not_lt.mpr he)]
  simp only [Option.getD_some, List.set_set]
  refine ⟨_, rfl, rfl, rfl, rfl, ?_, ?_⟩
  · simp [git_object__source_close_src, hsrc_open]
  · simp [git_repository_lookup, cache_lookup_insert]

/-- Witness for C3: writing a fresh modified in-memory blob through an
ODB whose write backend assigns digest `[42]` clears the flags, binds the
new digest to the same heap slot, and a subsequent `ANY` lookup returns
that slot. -/
theorem C3_object_write_success_witness :
    ∃ obj2 : git_object,
      git_object_write (fun _ s => (GIT_SUCCESS, s))
          ⟨[⟨0, fun _ => (GIT_ENOTFOUND, ⟨0, none, 0⟩), none,
             some (fun _ => (GIT_SUCCESS, ⟨[42]⟩)), none⟩]⟩
          ⟨[], [⟨⟨[1]⟩, ⟨⟨3, none, 0⟩, none, 0, false⟩, true, true⟩]⟩ 0 =
        (GIT_SUCCESS,
         { objects := cache_insert
             (if (⟨⟨[1]⟩, ⟨⟨3, none, 0⟩, none, 0, false⟩, true, true⟩ : git_object).in_memory
              then ([] : List (git_oid × Nat))
              else cache_remove []
                (⟨⟨[1]⟩, ⟨⟨3, none, 0⟩, none, 0, false⟩, true, true⟩ : git_object).id)
             ⟨[42]⟩ 0,
           heap := [(⟨⟨[1]⟩, ⟨⟨3, none, 0⟩, none, 0, false⟩, true, true⟩ : git_object)].set
             0 obj2 }) ∧
      obj2.id = ⟨[42]⟩ ∧ obj2.modified = false ∧ obj2.in_memory = false ∧
      obj2.source.is_open = false ∧
      git_repository_lookup (fun _ _ => GIT_SUCCESS)
          ⟨[⟨0, fun _ => (GIT_ENOTFOUND, ⟨0, none, 0⟩), none,
             some (fun _ => (GIT_SUCCESS, ⟨[42]⟩)), none⟩]⟩
          (git_object_write (fun _ s => (GIT_SUCCESS, s))
            ⟨[⟨0, fun _ => (GIT_ENOTFOUND, ⟨0, none, 0⟩), none,
               some (fun _ => (GIT_SUCCESS, ⟨[42]⟩)), none⟩]⟩
            ⟨[], [⟨⟨[1]⟩, ⟨⟨3, none, 0⟩, none, 0, false⟩, true, true⟩]⟩ 0).2 ⟨[42]⟩
          GIT_OBJ_ANY =
        ⟨GIT_SUCCESS, some 0,
         (git_object_write (fun _ s => (GIT_SUCCESS, s))
            ⟨[⟨0, fun _ => (GIT_ENOTFOUND, ⟨0, none, 0⟩), none,
               some (fun _ => (GIT_SUCCESS, ⟨[42]⟩)), none⟩]⟩
            ⟨[], [⟨⟨[1]⟩, ⟨⟨3, none, 0⟩, none, 0, false⟩, true, true⟩]⟩ 0).2, true⟩ :=
  C3_object_write_success (fun _ s => (GIT_SUCCESS, s)) (fun _ _ => GIT_SUCCESS)
    ⟨[⟨0, fun _ => (GIT_ENOTFOUND, ⟨0, none, 0⟩), none,
       some (fun _ => (GIT_SUCCESS, ⟨[42]⟩)), none⟩]⟩
    ⟨[], [⟨⟨[1]⟩, ⟨⟨3, none, 0⟩, none, 0, false⟩, true, true⟩]⟩ 0
    ⟨⟨[1]⟩, ⟨⟨3, none, 0⟩, none, 0, false⟩, true, true⟩ GIT_SUCCESS ⟨[42]⟩
    rfl rfl (by decide) (by decide) rfl (by decide) (by decide)

theorem source_close_src_is_open (s : git_odb_source) :
    (git_object__source_close_src s).is_open = false := by
  simp only [git_object__source_close_src]
  split_ifs with h
  · rfl
  · simpa using h

/-- C10: during `git_object_write` on a modified object, when the
type-specific serializer succeeds but the subsequent ODB write fails,
the call returns the ODB error with `modified` still set, `in_memory`
and the cache binding unchanged, and the source slot left open holding
the serialized bytes (its length trimmed to the written count); in
contrast, a serializer failure closes the slot before the error
propagates (cache and flags also unchanged). -/
theorem C10_write_odb_failure
    (db : git_odb) (repo : git_repository) (p : Nat) (obj : git_object)
    (hp : repo.heap.get? p = some obj)
    (hmod : obj.modified = true)
    (hty : obj.source.raw.type = GIT_OBJ_COMMIT ∨ obj.source.raw.type = GIT_OBJ_TREE ∨
      obj.source.raw.type = GIT_OBJ_TAG ∨ obj.source.raw.type = GIT_OBJ_BLOB) :
    (∀ (ser : Int → git_odb_source → Int × git_odb_source) (e : Int)
       (w : Option git_oid),
       0 ≤ (ser obj.source.raw.type (prepare_write_source obj.source)).1 →
       ((ser obj.source.raw.type (prepare_write_source obj.source)).2).is_open = true →
       git_odb_write db
         { ((ser obj.source.raw.type (prepare_write_source obj.source)).2).raw with
           len := ((ser obj.source.raw.type
             (prepare_write_source obj.source)).2).written_bytes } = (e, w) →
       e < 0 →
       ∃ obj1 : git_object,
         git_object_write ser db repo p =
           (e, { repo with heap := repo.heap.set p obj1 }) ∧
         obj1.modified = true ∧ obj1.in_memory = obj.in_memory ∧
         obj1.id = obj.id ∧ obj1.source.is_open = true ∧
         obj1.source.raw.len =
           ((ser obj.source.raw.type
             (prepare_write_source obj.source)).2).written_bytes ∧
         obj1.source.raw.data =
           ((ser obj.source.raw.type (prepare_write_source obj.source)).2).raw.data ∧
         obj1.source.written_bytes =
           ((ser obj.source.raw.type
             (prepare_write_source obj.source)).2).written_bytes) ∧
    (∀ ser : Int → git_odb_source → Int × git_odb_source,
       (ser obj.source.raw.type (prepare_write_source obj.source)).1 < 0 →
       ∃ obj1 : git_object,
         git_object_write ser db repo p =
           ((ser obj.source.raw.type (prepare_write_source obj.source)).1,
            { repo with heap := repo.heap.set p obj1 }) ∧
         obj1.source.is_open = false ∧ obj1.modified = true ∧
         obj1.in_memory = obj.in_memory ∧ obj1.id = obj.id) := by
  have hlt : p < repo.heap.length := get?_some_lt _ _ _ hp
  constructor
  · intro ser e w hser hso hw he
    simp only [git_object_write, hp, hmod]
    rw [if_neg (show ¬ ((true : Bool) = false) by decide)]
    rw [prepare_write_source_type, if_pos hty, if_neg (not_lt.mpr hser)]
    simp only [write_back, List.get?_set_eq_of_lt _ hlt]
    rw [hw, if_pos he]
    simp only [List.set_set]
    exact ⟨_, rfl, rfl, rfl, rfl, hso, rfl, rfl, rfl⟩
  · intro ser hser
    simp only [git_object_write, hp, hmod]
    rw [if_neg (show ¬ ((true : Bool) = false) by decide)]
    rw [prepare_write_source_type, if_pos hty, if_pos hser]
    exact ⟨_, rfl, source_close_src_is_open _, rfl, rfl, rfl⟩

/-- Witness for C10 at a concrete cached, modified blob: an ODB whose
write backend fails leaves the slot open with the error propagated, and
a failing serializer leaves the slot closed. -/
theorem C10_write_odb_failure_witness :
    (∃ obj1 : git_object,
       git_object_write (fun _ s => (GIT_SUCCESS, s))
           ⟨[⟨0, fun _ => (GIT_ENOTFOUND, ⟨0, none, 0⟩), none,
              some (fun _ => (GIT_ERROR, ⟨[]⟩)), none⟩]⟩
           ⟨[(⟨[1]⟩, 0)], [⟨⟨[1]⟩, ⟨⟨3, none, 0⟩, none, 0, false⟩, false, true⟩]⟩ 0 =
         (GIT_ERROR,
          { (⟨[(⟨[1]⟩, 0)], [⟨⟨[1]⟩, ⟨⟨3, none, 0⟩, none, 0, false⟩, false, true⟩]⟩ :
              git_repository) with
            heap := [(⟨⟨[1]⟩, ⟨⟨3, none, 0⟩, none, 0, false⟩, false, true⟩ :
              git_object)].set 0 obj1 }) ∧
       obj1.modified = true ∧
       obj1.in_memory = (⟨⟨[1]⟩, ⟨⟨3, none, 0⟩, none, 0, false⟩, false, true⟩ :
         git_object).in_memory ∧
       obj1.id = (⟨⟨[1]⟩, ⟨⟨3, none, 0⟩, none, 0, false⟩, false, true⟩ :
         git_object).id ∧
       obj1.source.is_open = true ∧
       obj1.source.raw.len =
         (((fun _ s => (GIT_SUCCESS, s)) : Int → git_odb_source → Int × git_odb_source)
           (⟨⟨[1]⟩, ⟨⟨3, none, 0⟩, none, 0, false⟩, false, true⟩ :
             git_object).source.raw.type
           (prepare_write_source (⟨⟨[1]⟩, ⟨⟨3, none, 0⟩, none, 0, false⟩, false, true⟩ :
             git_object).source)).2.written_bytes ∧
       obj1.source.raw.data =
         (((fun _ s => (GIT_SUCCESS, s)) : Int → git_odb_source → Int × git_odb_source)
           (⟨⟨[1]⟩, ⟨⟨3, none, 0⟩, none, 0, false⟩, false, true⟩ :
             git_object).source.raw.type
           (prepare_write_source (⟨⟨[1]⟩, ⟨⟨3, none, 0⟩, none, 0, false⟩, false, true⟩ :
             git_object).source)).2.raw.data ∧
       obj1.source.written_bytes =
         (((fun _ s => (GIT_SUCCESS, s)) : Int → git_odb_source → Int × git_odb_source)
           (⟨⟨[1]⟩, ⟨⟨3, none, 0⟩, none, 0, false⟩, false, true⟩ :
             git_object).source.raw.type
           (prepare_write_source (⟨⟨[1]⟩, ⟨⟨3, none, 0⟩, none, 0, false⟩, false, true⟩ :
             git_object).source)).2.written_bytes) ∧
    (∃ obj1 : git_object,
       git_object_write (fun _ s => (GIT_ERROR, s))
           ⟨[⟨0, fun _ => (GIT_ENOTFOUND, ⟨0, none, 0⟩), none,
              some (fun _ => (GIT_ERROR, ⟨[]⟩)), none⟩]⟩
           ⟨[(⟨[1]⟩, 0)], [⟨⟨[1]⟩, ⟨⟨3, none, 0⟩, none, 0, false⟩, false, true⟩]⟩ 0 =
         ((((fun _ s => (GIT_ERROR, s)) : Int → git_odb_source → Int × git_odb_source)
             (⟨⟨[1]⟩, ⟨⟨3, none, 0⟩, none, 0, false⟩, false, true⟩ :
               git_object).source.raw.type
             (prepare_write_source (⟨⟨[1]⟩, ⟨⟨3, none, 0⟩, none, 0, false⟩, false,
               true⟩ : git_object).source)).1,
          { (⟨[(⟨[1]⟩, 0)], [⟨⟨[1]⟩, ⟨⟨3, none, 0⟩, none, 0, false⟩, false, true⟩]⟩ :
              git_repository) with
            heap := [(⟨⟨[1]⟩, ⟨⟨3, none, 0⟩, none, 0, false⟩, false, true⟩ :
              git_object)].set 0 obj1 }) ∧
       obj1.source.is_open = false ∧ obj1.modified = true ∧
       obj1.in_memory = (⟨⟨[1]⟩, ⟨⟨3, none, 0⟩, none, 0, false⟩, false, true⟩ :
         git_object).in_memory ∧
       obj1.id = (⟨⟨[1]⟩, ⟨⟨3, none, 0⟩, none, 0, false⟩, false, true⟩ :
         git_object).id) :=
  ⟨(C10_write_odb_failure
      ⟨[⟨0, fun _ => (GIT_ENOTFOUND, ⟨0, none, 0⟩), none,
         some (fun _ => (GIT_ERROR, ⟨[]⟩)), none⟩]⟩
      ⟨[(⟨[1]⟩, 0)], [⟨⟨[1]⟩, ⟨⟨3, none, 0⟩, none, 0, false⟩, false, true⟩]⟩ 0
      ⟨⟨[1]⟩, ⟨⟨3, none, 0⟩, none, 0, false⟩, false, true⟩ rfl rfl (by decide)).1
     (fun _ s => (GIT_SUCCESS, s)) GIT_ERROR (some ⟨[]⟩)
     (by decide) rfl (by decide) (by decide),
   (C10_write_odb_failure
      ⟨[⟨0, fun _ => (GIT_ENOTFOUND, ⟨0, none, 0⟩), none,
         some (fun _ => (GIT_ERROR, ⟨[]⟩)), none⟩]⟩
      ⟨[(⟨[1]⟩, 0)], [⟨⟨[1]⟩, ⟨⟨3, none, 0⟩, none, 0, false⟩, false, true⟩]⟩ 0
      ⟨⟨[1]⟩, ⟨⟨3, none, 0⟩, none, 0, false⟩, false, true⟩ rfl rfl (by decide)).2
     (fun _ s => (GIT_ERROR, s)) (by decide)⟩

/-- C9: `git_object_id` returns NULL exactly when the object is
`in_memory` (freshly created by `new` and never written); an object
freshly materialized by a cache-miss lookup, and an object that has
completed a successful write, both carry `in_memory = false` and
`git_object_id` returns their stored digest. -/
theorem C9_object_id_null_iff :
    (∀ obj : git_object, git_object_id obj = none ↔ obj.in_memory = true) ∧
    (∀ (repo : git_repository) (T : Int) (q : Nat),
       (git_repository_newobject repo T).2.1 = some q →
       ∃ o, ((git_repository_newobject repo T).2.2).heap.get? q = some o ∧
         o.in_memory = true ∧ git_object_id o = none) ∧
    (∀ (parse : Int → git_rawobj → Int) (db : git_odb) (repo : git_repository)
       (d : git_oid) (T : Int) (q : Nat),
       cache_lookup repo.objects d = none →
       (git_repository_lookup parse db repo d T).err = GIT_SUCCESS →
       (git_repository_lookup parse db repo d T).ptr = some q →
       ∃ o, ((git_repository_lookup parse db repo d T).repo).heap.get? q = some o ∧
         o.in_memory = false ∧ git_object_id o = some d) ∧
    (∀ (ser : Int → git_odb_source → Int × git_odb_source) (db : git_odb)
       (repo : git_repository) (p : Nat) (obj : git_object) (e : Int) (nid : git_oid),
       repo.heap.get? p = some obj →
       obj.modified = true →
       (obj.source.raw.type = GIT_OBJ_COMMIT ∨ obj.source.raw.type = GIT_OBJ_TREE ∨
        obj.source.raw.type = GIT_OBJ_TAG ∨ obj.source.raw.type = GIT_OBJ_BLOB) →
       0 ≤ (ser obj.source.raw.type (prepare_write_source obj.source)).1 →
       git_odb_write db
         { ((ser obj.source.raw.type (prepare_write_source obj.source)).2).raw with
           len := ((ser obj.source.raw.type
             (prepare_write_source obj.source)).2).written_bytes } = (e, some nid) →
       0 ≤ e →
       ∃ o, ((git_object_write ser db repo p).2).heap.get? p = some o ∧
         o.in_memory = false ∧ git_object_id o = some nid) := by
  refine ⟨?_, ?_, ?_, ?_⟩
  · intro obj
    by_cases h : obj.in_memory <;> simp [git_object_id, h]
  · intro repo T q hq
    by_cases hv : T = GIT_OBJ_COMMIT ∨ T = GIT_OBJ_TAG ∨ T = GIT_OBJ_TREE ∨
        T = GIT_OBJ_BLOB
    · simp only [git_repository_newobject, if_pos hv] at hq ⊢
      obtain rfl : repo.heap.length = q := by simpa using hq
      exact ⟨_, List.get?_concat_length _ _, rfl, rfl⟩
    · simp only [git_repository_newobject, if_neg hv] at hq
      exact Option.noConfusion hq
  · intro parse db repo d T q hcl h hptr
    simp only [git_repository_lookup, hcl] at h hptr ⊢
    by_cases hr : (git_odb_read db d).1 < 0
    · rw [if_pos hr] at h
      simp only [GIT_SUCCESS] at h
      omega
    · rw [if_neg hr] at h hptr ⊢
      by_cases hty : T ≠ GIT_OBJ_ANY ∧
          T ≠ ((git_odb_read db d).2.getD ⟨GIT_OBJ_BAD, none, 0⟩).type
      · rw [if_pos hty] at h
        simp only [GIT_EINVALIDTYPE, GIT_SUCCESS] at h
        omega
      · rw [if_neg hty] at h hptr ⊢
        by_cases he : (if ((git_odb_read db d).2.getD ⟨GIT_OBJ_BAD, none, 0⟩).type =
              GIT_OBJ_COMMIT ∨
            ((git_odb_read db d).2.getD ⟨GIT_OBJ_BAD, none, 0⟩).type = GIT_OBJ_TREE ∨
            ((git_odb_read db d).2.getD ⟨GIT_OBJ_BAD, none, 0⟩).type = GIT_OBJ_TAG ∨
            ((git_odb_read db d).2.getD ⟨GIT_OBJ_BAD, none, 0⟩).type = GIT_OBJ_BLOB then
            parse ((git_odb_read db d).2.getD ⟨GIT_OBJ_BAD, none, 0⟩).type
              ((git_odb_read db d).2.getD ⟨GIT_OBJ_BAD, none, 0⟩)
          else (git_odb_read db d).1) < 0
        · rw [if_pos he] at h
          simp only [GIT_SUCCESS] at h
          omega
        · rw [if_neg he] at hptr ⊢
          obtain rfl : repo.heap.length = q := by simpa using hptr
          exact ⟨_, List.get?_concat_length _ _, rfl, rfl⟩
  · intro ser db repo p obj e nid hp hmod hty hser hw he
    have hlt : p < repo.heap.length := get?_some_lt _ _ _ hp
    simp only [git_object_write, hp, hmod]
    rw [if_neg (show ¬ ((true : Bool) = false) by decide)]
    rw [prepare_write_source_type, if_pos hty, if_neg (not_lt.mpr hser)]
    simp only [write_back, List.get?_set_eq_of_lt _ hlt]
    rw [hw, if_neg (not_lt.mpr he)]
    simp only [Option.getD_some, List.set_set]
    exact ⟨_, List.get?_set_eq_of_lt _ (by simpa using hlt), rfl, rfl⟩

/-- Witness for C9: a fresh in-memory object has a NULL id; a blob
materialized by lookup and an object that completed a write both expose
their stored digest. -/
theorem C9_object_id_null_iff_witness :
    (git_object_id ⟨⟨[7]⟩, ⟨⟨3, none, 0⟩, none, 0, false⟩, true, true⟩ = none ↔
      (⟨⟨[7]⟩, ⟨⟨3, none, 0⟩, none, 0, false⟩, true, true⟩ :
        git_object).in_memory = true) ∧
    (∃ o, ((git_repository_newobject ⟨[], []⟩ GIT_OBJ_BLOB).2.2).heap.get? 0 =
        some o ∧ o.in_memory = true ∧ git_object_id o = none) ∧
    (∃ o, ((git_repository_lookup (fun _ _ => GIT_SUCCESS)
        ⟨[⟨0, fun _ => (GIT_SUCCESS, ⟨3, some [104], 1⟩), none, none, none⟩]⟩
        ⟨[], []⟩ ⟨[1]⟩ GIT_OBJ_ANY).repo).heap.get? 0 = some o ∧
      o.in_memory = false ∧ git_object_id o = some ⟨[1]⟩) ∧
    (∃ o, ((git_object_write (fun _ s => (GIT_SUCCESS, s))
        ⟨[⟨0, fun _ => (GIT_ENOTFOUND, ⟨0, none, 0⟩), none,
           some (fun _ => (GIT_SUCCESS, ⟨[42]⟩)), none⟩]⟩
        ⟨[], [⟨⟨[1]⟩, ⟨⟨3, none, 0⟩, none, 0, false⟩, true, true⟩]⟩ 0).2).heap.get? 0 =
        some o ∧ o.in_memory = false ∧ git_object_id o = some ⟨[42]⟩) :=
  ⟨C9_object_id_null_iff.1 ⟨⟨[7]⟩, ⟨⟨3, none, 0⟩, none, 0, false⟩, true, true⟩,
   C9_object_id_null_iff.2.1 ⟨[], []⟩ GIT_OBJ_BLOB 0 (by decide),
   C9_object_id_null_iff.2.2.1 (fun _ _ => GIT_SUCCESS)
     ⟨[⟨0, fun _ => (GIT_SUCCESS, ⟨3, some [104], 1⟩), none, none, none⟩]⟩
     ⟨[], []⟩ ⟨[1]⟩ GIT_OBJ_ANY 0 rfl (by decide) (by decide),
   C9_object_id_null_iff.2.2.2 (fun _ s => (GIT_SUCCESS, s))
     ⟨[⟨0, fun _ => (GIT_ENOTFOUND, ⟨0, none, 0⟩), none,
        some (fun _ => (GIT_SUCCESS, ⟨[42]⟩)), none⟩]⟩
     ⟨[], [⟨⟨[1]⟩, ⟨⟨3, none, 0⟩, none, 0, false⟩, true, true⟩]⟩ 0
     ⟨⟨[1]⟩, ⟨⟨3, none, 0⟩, none, 0, false⟩, true, true⟩ GIT_SUCCESS ⟨[42]⟩
     rfl rfl (by decide) (by decide) (by decide) (by decide)⟩

/-! ## Repository discovery (`src/repository.c`) -/

/-- The filesystem oracle behind `gitfo_isdir` / `gitfo_exists` (the path
primitives are external to the translated sources); paths are modelled as
character lists. -/
structure fs_model where
  isdir : List Char → Bool
  file_exists : List Char → Bool

/-- The path/bareness fields of `git_repository` that
`guess_repository_folders` assigns. -/
structure git_repository_folders where
  path_repository : Option (List Char)
  path_odb : Option (List Char)
  path_index : Option (List Char)
  path_workdir : Option (List Char)
  is_bare : Bool
deriving DecidableEq, Repr

/-- The `while (*last_folder != '/') last_folder--;` scan of
`guess_repository_folders`, walking backwards from a start index for a
`'/'`.  `none` models the scan running off the front of the buffer
(undefined behavior in C; unreachable for `'/'`-rooted paths). -/
def scan_back_slash (s : List Char) : Nat → Option Nat
  | 0 => if s.get? 0 = some '/' then some 0 else none
  | j + 1 => if s.get? (j + 1) = some '/' then some (j + 1) else scan_back_slash s j

/-- `guess_repository_folders` from `src/repository.c`: require a
directory, normalize to a trailing separator, require `objects/` and
`HEAD`, then classify by the final path component — `/.git/` means
non-bare (index path and working directory derived), anything else means
bare with a NULL working directory. -/
def guess_repository_folders (fs : fs_model) (path : List Char) :
    Int × git_repository_folders :=
  if ¬ fs.isdir path then (GIT_ENOTAREPO, ⟨none, none, none, none, false⟩)
  else
    let s := if path.getLast? = some '/' then path else path ++ ['/']
    let f1 : git_repository_folders := ⟨some s, none, none, none, false⟩
    if ¬ fs.isdir (s ++ "objects/".toList) then (GIT_ENOTAREPO, f1)
    else
      let f2 := { f1 with path_odb := some (s ++ "objects/".toList) }
      if ¬ fs.file_exists (s ++ "HEAD".toList) then (GIT_ENOTAREPO, f2)
      else
        match scan_back_slash s (s.length - 2) with
        | none => (GIT_ERROR, f2)
        | some j =>
          if s.drop j = "/.git/".toList then
            (GIT_SUCCESS, { f2 with
              path_index := some (s ++ "index".toList),
              path_workdir := some (s.take (j + 1)),
              is_bare := false })
          else
            (GIT_SUCCESS, { f2 with path_workdir := none, is_bare := true })

/-- Insertion of a backend into a list sorted by descending priority;
the helper behind `sort_backends`. -/
def insert_backend (b : git_odb_backend) :
    List git_odb_backend → List git_odb_backend
  | [] => [b]
  | x :: rest =>
      if x.priority < b.priority then b :: x :: rest else x :: insert_backend b rest

/-- `git_vector_sort` with `backend_sort_cmp` from `src/odb.c`: order
the backends by descending priority (insertion sort, so ties keep
insertion order — the tie-break stated for the ODB). -/
def sort_backends : List git_odb_backend → List git_odb_backend
  | [] => []
  | b :: rest => insert_backend b (sort_backends rest)

/-- `git_odb_add_backend` from `src/odb.c`: a backend already bound to a
*different* ODB is rejected with `GIT_EBUSY`; otherwise the backend is
bound to this ODB (`backend->odb = odb`), inserted, and the vector
re-sorted.  Pointer identity of ODBs is outside this value model, so the
C condition `backend->odb != NULL && backend->odb != odb` is passed in
as the `bound_to_other` flag.  (`git_vector_insert` fails only with
`GIT_ENOMEM`; allocation is modelled as succeeding throughout.) -/
def git_odb_add_backend (db : git_odb) (backend : git_odb_backend)
    (bound_to_other : Bool) : Int × git_odb :=
  if bound_to_other then (GIT_EBUSY, db)
  else (GIT_SUCCESS, ⟨sort_backends (db.backends ++ [backend])⟩)

/-- `git_odb_open` from `src/odb.c`, abstracted over the two external
backend constructors (`git_odb_backend_loose` and `git_odb_backend_pack`
are defined outside the translated sources): `none` models a constructor
declining (nonzero return), `some (b, bound)` models it returning the
backend `b` whose already-bound-to-a-different-ODB status is `bound`.
The fresh ODB comes from `git_odb_new` (empty backend vector; it fails
only on allocation, modelled as succeeding); if adding a constructed
backend fails, the ODB is closed and the error propagated (`none`). -/
def git_odb_open (loose pack : Option (git_odb_backend × Bool)) :
    Int × Option git_odb :=
  let db : git_odb := ⟨[]⟩
  let r1 := match loose with
    | none => (GIT_SUCCESS, db)
    | some (b, bound) => git_odb_add_backend db b bound
  if r1.1 < 0 then (r1.1, none)
  else
    let r2 := match pack with
      | none => (GIT_SUCCESS, r1.2)
      | some (b, bound) => git_odb_add_backend r1.2 b bound
    if r2.1 < 0 then (r2.1, none)
    else (GIT_SUCCESS, some r2.2)

/-- `git_repository_open` from `src/repository.c`: allocate, guess the
folders, open the ODB at the objects directory (the external loose/pack
constructors abstracted as in `git_odb_open`); on any failure the
partially-constructed repository is freed (`none`). -/
def git_repository_open (fs : fs_model)
    (loose pack : Option (git_odb_backend × Bool)) (path : List Char) :
    Int × Option (git_repository_folders × git_odb) :=
  let r := guess_repository_folders fs path
  if r.1 < 0 then (r.1, none)
  else
    let rodb := git_odb_open loose pack
    match rodb.2 with
    | none => (rodb.1, none)
    | some db => (GIT_SUCCESS, some (r.2, db))

theorem git_odb_open_success (loose pack : Option (git_odb_backend × Bool))
    (hl : ∀ b, loose ≠ some (b, true)) (hp : ∀ b, pack ≠ some (b, true)) :
    ∃ db, git_odb_open loose pack = (GIT_SUCCESS, some db) := by
  cases loose with
  | none =>
    cases pack with
    | none => exact ⟨_, rfl⟩
    | some bb =>
      obtain ⟨b, bd⟩ := bb
      cases bd with
      | false => exact ⟨_, rfl⟩
      | true => exact absurd rfl (hp b)
  | some bb =>
    obtain ⟨b, bd⟩ := bb
    cases bd with
    | true => exact absurd rfl (hl b)
    | false =>
      cases pack with
      | none => exact ⟨_, rfl⟩
      | some bb2 =>
        obtain ⟨b2, bd2⟩ := bb2
        cases bd2 with
        | false => exact ⟨_, rfl⟩
        | true => exact absurd rfl (hp b2)

/-- C7: opening a directory that contains `objects/` and `HEAD` succeeds
(the ODB open succeeds whenever the externally constructed backends are
not already bound to another ODB) and classifies by the final component
of the normalized path (`s`, the path with a trailing separator; `j` is
the index of the separator preceding the final component, found by the
backward scan): if the final component is `.git` the repository is
non-bare with `path_index = <path>/index` and `path_workdir` the path
stripped of the trailing `.git/` (witnessed by
`s = path_workdir ++ ".git/"`); otherwise it is bare and `path_workdir`
is NULL. -/
theorem C7_repository_open_classifies
    (fs : fs_model) (loose pack : Option (git_odb_backend × Bool))
    (path s : List Char) (j : Nat)
    (hs : s = if path.getLast? = some '/' then path else path ++ ['/'])
    (hdir : fs.isdir path = true)
    (hobj : fs.isdir (s ++ "objects/".toList) = true)
    (hhead : fs.file_exists (s ++ "HEAD".toList) = true)
    (hscan : scan_back_slash s (s.length - 2) = some j)
    (hl : ∀ b, loose ≠ some (b, true)) (hpk : ∀ b, pack ≠ some (b, true)) :
    (s.drop j = "/.git/".toList →
       ∃ db, git_odb_open loose pack = (GIT_SUCCESS, some db) ∧
         git_repository_open fs loose pack path =
           (GIT_SUCCESS, some (⟨some s, some (s ++ "objects/".toList),
              some (s ++ "index".toList), some (s.take (j + 1)), false⟩, db)) ∧
         s = s.take (j + 1) ++ ".git/".toList) ∧
    (s.drop j ≠ "/.git/".toList →
       ∃ db, git_odb_open loose pack = (GIT_SUCCESS, some db) ∧
         git_repository_open fs loose pack path =
           (GIT_SUCCESS, some (⟨some s, some (s ++ "objects/".toList),
              none, none, true⟩, db))) := by
  subst hs
  obtain ⟨db0, hdb⟩ := git_odb_open_success loose pack hl hpk
  constructor
  · intro hgit
    refine ⟨db0, hdb, ?_, ?_⟩
    · simp only [git_repository_open, guess_repository_folders, hdir, hobj, hhead,
        hscan, not_true, if_false, if_pos hgit, hdb]
      rw [if_neg (show ¬ (GIT_SUCCESS < 0) by decide)]
    · have hdrop1 : (if path.getLast? = some '/' then path else path ++ ['/']).drop
          (j + 1) = ".git/".toList := by
        have hd : (if path.getLast? = some '/' then path else path ++ ['/']).drop
            (j + 1) = ((if path.getLast? = some '/' then path else
              path ++ ['/']).drop j).drop 1 := by
          rw [List.drop_drop]
        rw [hd, hgit]
        decide
      conv_lhs => rw [← List.take_append_drop (j + 1)
        (if path.getLast? = some '/' then path else path ++ ['/'])]
      rw [hdrop1]
  · intro hgit
    refine ⟨db0, hdb, ?_⟩
    simp only [git_repository_open, guess_repository_folders, hdir, hobj, hhead,
      hscan, not_true, if_false, if_neg hgit, hdb]
    rw [if_neg (show ¬ (GIT_SUCCESS < 0) by decide)]

/-- Witness for C7: `/tmp/r/.git` (with `objects/` and `HEAD`, a loose
backend constructed unbound, the pack backend declining) opens non-bare
with `path_workdir = "/tmp/r/"` and `path_index = "/tmp/r/.git/index"`;
`/tmp/bare.git` (both backends declining) opens bare with a NULL working
directory. -/
theorem C7_repository_open_classifies_witness :
    (∃ db, git_odb_open
        (some (⟨5, fun _ => (GIT_ENOTFOUND, ⟨0, none, 0⟩), none, none, none⟩, false))
        none = (GIT_SUCCESS, some db) ∧
      git_repository_open
        ⟨fun p => p == "/tmp/r/.git".toList || p == "/tmp/r/.git/objects/".toList,
         fun p => p == "/tmp/r/.git/HEAD".toList⟩
        (some (⟨5, fun _ => (GIT_ENOTFOUND, ⟨0, none, 0⟩), none, none, none⟩, false))
        none "/tmp/r/.git".toList =
      (GIT_SUCCESS, some (⟨some "/tmp/r/.git/".toList,
        some ("/tmp/r/.git/".toList ++ "objects/".toList),
        some ("/tmp/r/.git/".toList ++ "index".toList),
        some ("/tmp/r/.git/".toList.take 7), false⟩, db)) ∧
      "/tmp/r/.git/".toList = "/tmp/r/.git/".toList.take 7 ++ ".git/".toList) ∧
    (∃ db, git_odb_open none none = (GIT_SUCCESS, some db) ∧
      git_repository_open
        ⟨fun p => p == "/tmp/bare.git".toList || p == "/tmp/bare.git/objects/".toList,
         fun p => p == "/tmp/bare.git/HEAD".toList⟩ none none
        "/tmp/bare.git".toList =
      (GIT_SUCCESS, some (⟨some "/tmp/bare.git/".toList,
        some ("/tmp/bare.git/".toList ++ "objects/".toList), none, none, true⟩, db))) :=
  ⟨(C7_repository_open_classifies
      ⟨fun p => p == "/tmp/r/.git".toList || p == "/tmp/r/.git/objects/".toList,
       fun p => p == "/tmp/r/.git/HEAD".toList⟩
      (some (⟨5, fun _ => (GIT_ENOTFOUND, ⟨0, none, 0⟩), none, none, none⟩, false))
      none "/tmp/r/.git".toList "/tmp/r/.git/".toList 6
      (by decide) (by decide) (by decide) (by decide) (by decide)
      (by intro b h; simp at h) (by intro b h; simp at h)).1 (by decide),
   (C7_repository_open_classifies
      ⟨fun p => p == "/tmp/bare.git".toList || p == "/tmp/bare.git/objects/".toList,
       fun p => p == "/tmp/bare.git/HEAD".toList⟩ none none
      "/tmp/bare.git".toList "/tmp/bare.git/".toList 4
      (by decide) (by decide) (by decide) (by decide) (by decide)
      (by intro b h; simp at h) (by intro b h; simp at h)).2 (by decide)⟩
